import Mathlib

/-!
# Verification of the clip-pytorch model architecture

Shallow embedding of `src/nets/clip.py` and `src/nets/vit.py`.

Modelling conventions:
* Tensors become dependent functions `Fin a → ... → ℚ`; shapes live in the
  types, so a shape contract is checked by the type checker.
* Machine floating point is modelled by ℚ for the values; transcendental
  primitives of the tensor runtime (`exp`, `sqrt`, `sigmoid`, softmax inside
  `nn.MultiheadAttention`) are external library code and enter as explicit
  function parameters, never as stubs of repository code.
* dtype/device tags of tensors are modelled explicitly where a claim is about
  casting (`Tensor.type`, `Tensor.to`): a cast changes the tag.  The two mask
  values 0 and -inf are exactly representable in every torch float dtype, so
  keeping the payload unchanged under a dtype cast is exact for masks.
* `-inf` entries of additive attention masks get a dedicated value type
  `MaskVal` (ℚ has no infinities).
-/

namespace ClipPyTorch

/-- torch floating dtypes that occur in this model. -/
inductive DType : Type
  | float16
  | float32
  | float64
  deriving DecidableEq, Repr

/-- torch devices. -/
inductive Device : Type
  | cpu
  | cuda : ℕ → Device
  deriving DecidableEq, Repr

/-- Entry of an additive attention mask: either a finite value or -inf
(`float("-inf")` in `CLIP.build_attention_mask`). -/
inductive MaskVal : Type
  | negInf
  | val : ℚ → MaskVal
  deriving DecidableEq, Repr

/-! ## CLIP.build_attention_mask (src/nets/clip.py lines 73-79) -/

/-- `mask.fill_(float("-inf"))`: every entry of the fresh
(context_length, context_length) tensor becomes -inf. -/
def maskFillNegInf (n : ℕ) : Fin n → Fin n → MaskVal :=
  fun _ _ => MaskVal.negInf

/-- `mask.triu_(d)`: keep entries with `j - i ≥ d` (i.e. `i + d ≤ j`),
overwrite all other entries with 0. -/
def triuInPlace (n d : ℕ) (m : Fin n → Fin n → MaskVal) : Fin n → Fin n → MaskVal :=
  fun i j => if i.val + d ≤ j.val then m i j else MaskVal.val 0

/-- `CLIP.build_attention_mask`: fill with -inf, then `triu_(1)`. -/
def build_attention_mask (n : ℕ) : Fin n → Fin n → MaskVal :=
  triuInPlace n 1 (maskFillNegInf n)

/-! ## CLIP.forward similarity computation (src/nets/clip.py lines 113-125)

`forward` first runs both encoders; the claim is about what it does with the
two feature matrices, so the model takes those matrices as inputs.  `sqrt` is
the square-root primitive used by `Tensor.norm`, `rexp` the exponential used
by `logit_scale.exp()`. -/

/-- `t.norm(dim=-1)` for one row: the L2 norm, `sqrt` of the sum of squares. -/
def l2norm (sqrt : ℚ → ℚ) {d : ℕ} (v : Fin d → ℚ) : ℚ :=
  sqrt (∑ k, v k * v k)

/-- `t / t.norm(dim=-1, keepdim=True)`: divide every row by its L2 norm. -/
def normalizeRows (sqrt : ℚ → ℚ) {B d : ℕ} (m : Fin B → Fin d → ℚ) :
    Fin B → Fin d → ℚ :=
  fun b k => m b k / l2norm sqrt (m b)

/-- `A @ B.t()` for `A : (a, d)` and `B : (b, d)`. -/
def matmulTr {a b d : ℕ} (A : Fin a → Fin d → ℚ) (M : Fin b → Fin d → ℚ) :
    Fin a → Fin b → ℚ :=
  fun i j => ∑ k, A i k * M j k

/-- `t.t()`: matrix transpose. -/
def transposeM {a b : ℕ} (M : Fin a → Fin b → ℚ) : Fin b → Fin a → ℚ :=
  fun j i => M i j

/-- The tail of `CLIP.forward` after the two encoders: L2-normalize the image
and text features, compute `logit_scale.exp() * image_features @
text_features.t()`, and return that matrix together with its transpose.
Python's `s * A @ B.t()` parses as `(s * A) @ B.t()`, which the model follows. -/
def clipForwardLogits (rexp sqrt : ℚ → ℚ) (logit_scale : ℚ) {Bv Bt d : ℕ}
    (image_features : Fin Bv → Fin d → ℚ) (text_features : Fin Bt → Fin d → ℚ) :
    (Fin Bv → Fin Bt → ℚ) × (Fin Bt → Fin Bv → ℚ) :=
  let imageN := normalizeRows sqrt image_features
  let textN := normalizeRows sqrt text_features
  let logits_per_image := matmulTr (fun i k => rexp logit_scale * imageN i k) textN
  let logits_per_text := transposeM logits_per_image
  (logits_per_image, logits_per_text)

/-! ## dtype/device-tagged tensors

Used for the claims about casting (`LayerNorm.forward`,
`ResidualAttentionBlock.attention`, `CLIP.encode_*`). -/

/-- A (seq, batch, width) tensor with its dtype and device tags. -/
structure SeqTensor (L B D : ℕ) : Type where
  dtype : DType
  device : Device
  data : Fin L → Fin B → Fin D → ℚ
  deriving DecidableEq

/-- A (batch, width) tensor with its dtype and device tags. -/
structure BTensor (B D : ℕ) : Type where
  dtype : DType
  device : Device
  data : Fin B → Fin D → ℚ
  deriving DecidableEq

/-- An additive attention-mask tensor with its dtype and device tags. -/
structure MaskTensor (n : ℕ) : Type where
  dtype : DType
  device : Device
  data : Fin n → Fin n → MaskVal
  deriving DecidableEq

/-- `t.type(dt)` on a (seq, batch, width) tensor: cast to dtype `dt`. -/
def SeqTensor.type {L B D : ℕ} (t : SeqTensor L B D) (dt : DType) : SeqTensor L B D :=
  { t with dtype := dt }

/-- `t.type(dt)` on a (batch, width) tensor: cast to dtype `dt`. -/
def BTensor.type {B D : ℕ} (t : BTensor B D) (dt : DType) : BTensor B D :=
  { t with dtype := dt }

/-- `mask.to(dtype=dt, device=dev)`.  0 and -inf convert exactly between the
float dtypes, so the payload is unchanged. -/
def MaskTensor.to {n : ℕ} (m : MaskTensor n) (dt : DType) (dev : Device) : MaskTensor n :=
  { m with dtype := dt, device := dev }

/-! ## LayerNorm (src/nets/vit.py lines 7-13)

`LayerNorm` subclasses `nn.LayerNorm` "to handle fp16": the forward saves the
input dtype, runs the base normalization on the input cast to float32, and
casts the result back.  The base `nn.LayerNorm.forward` is torch library code;
its documented mathematics is `(x - mean) / sqrt(var + eps) * weight + bias`
over the last axis, with `sqrt` the runtime's square root. -/

/-- Learned affine parameters of a normalization layer. -/
structure LnParams (D : ℕ) : Type where
  weight : Fin D → ℚ
  bias : Fin D → ℚ

/-- Mean of a width-`D` vector. -/
def vecMean {D : ℕ} (v : Fin D → ℚ) : ℚ := (∑ i, v i) / D

/-- Biased variance of a width-`D` vector. -/
def vecVar {D : ℕ} (v : Fin D → ℚ) : ℚ :=
  (∑ i, (v i - vecMean v) * (v i - vecMean v)) / D

/-- `nn.LayerNorm` on one width-`D` vector (documented torch semantics). -/
def layerNormVec (sqrt : ℚ → ℚ) (eps : ℚ) {D : ℕ} (p : LnParams D) (v : Fin D → ℚ) :
    Fin D → ℚ :=
  fun i => (v i - vecMean v) / sqrt (vecVar v + eps) * p.weight i + p.bias i

/-- Base `nn.LayerNorm.forward` on a tagged (batch, width) tensor: normalizes
each row; dtype and device tags of the input are kept. -/
def nnLayerNormForward (sqrt : ℚ → ℚ) (eps : ℚ) {B D : ℕ} (p : LnParams D)
    (x : BTensor B D) : BTensor B D :=
  { dtype := x.dtype, device := x.device
    data := fun b => layerNormVec sqrt eps p (x.data b) }

/-- `LayerNorm.forward` of src/nets/vit.py: remember `orig_type = x.dtype`,
run the base normalization on `x.type(torch.float32)`, return
`ret.type(orig_type)`. -/
def LayerNormCast.forward (sqrt : ℚ → ℚ) (eps : ℚ) {B D : ℕ} (p : LnParams D)
    (x : BTensor B D) : BTensor B D :=
  let orig_type := x.dtype
  let ret := nnLayerNormForward sqrt eps p (x.type DType.float32)
  ret.type orig_type

/-! ## QuickGELU and the MLP (src/nets/vit.py lines 16-31) -/

/-- `QuickGELU.forward`: `x * torch.sigmoid(1.702 * x)`; `torch.sigmoid` is a
runtime primitive, passed in as `sigmoid`. -/
def quickGELU (sigmoid : ℚ → ℚ) (x : ℚ) : ℚ :=
  x * sigmoid ((1702 / 1000) * x)

/-- `nn.Linear` on one vector: `W · v + b`. -/
def linearMap {m n : ℕ} (w : Fin m → Fin n → ℚ) (b : Fin m → ℚ) (v : Fin n → ℚ) :
    Fin m → ℚ :=
  fun i => (∑ j, w i j * v j) + b i

/-- Learned weights of the block's `mlp`: `c_fc : d_model → 4*d_model`,
then QuickGELU, then `c_proj : 4*d_model → d_model`. -/
structure MlpParams (D : ℕ) : Type where
  c_fc_w : Fin (4 * D) → Fin D → ℚ
  c_fc_b : Fin (4 * D) → ℚ
  c_proj_w : Fin D → Fin (4 * D) → ℚ
  c_proj_b : Fin D → ℚ

/-- The block's `mlp` applied to one width-`D` vector. -/
def mlpForward (sigmoid : ℚ → ℚ) {D : ℕ} (p : MlpParams D) (v : Fin D → ℚ) :
    Fin D → ℚ :=
  linearMap p.c_proj_w p.c_proj_b
    (fun h => quickGELU sigmoid (linearMap p.c_fc_w p.c_fc_b v h))

/-! ## ResidualAttentionBlock (src/nets/vit.py lines 21-42)

`nn.MultiheadAttention` is torch library code, so it enters as an abstract
function `attnFn` of the (normalized) input and the optional additive mask.
`ln_1`/`ln_2` are the casting `LayerNorm`; on the ℚ payload the cast is the
identity, so the data-level effect is `layerNormVec`. -/

/-- Learned weights of one residual attention block (minus the attention
weights, which live inside the abstract `nn.MultiheadAttention`). -/
structure BlockParams (D : ℕ) : Type where
  ln_1 : LnParams D
  ln_2 : LnParams D
  mlp : MlpParams D

/-- `ResidualAttentionBlock.forward` at the level of the ℚ payload:
`x = x + attention(ln_1(x))`, then `x = x + mlp(ln_2(x))`.  The attention
receives the block's optional additive mask. -/
def resblockForward (sqrt sigmoid : ℚ → ℚ) (eps : ℚ) {L B D : ℕ}
    (attnFn : (Fin L → Fin B → Fin D → ℚ) → Option (Fin L → Fin L → MaskVal) →
      (Fin L → Fin B → Fin D → ℚ))
    (mask : Option (Fin L → Fin L → MaskVal))
    (p : BlockParams D)
    (x : Fin L → Fin B → Fin D → ℚ) : Fin L → Fin B → Fin D → ℚ :=
  let x1 : Fin L → Fin B → Fin D → ℚ := fun l b d =>
    x l b d + attnFn (fun l2 b2 => layerNormVec sqrt eps p.ln_1 (x l2 b2)) mask l b d
  fun l b d =>
    x1 l b d + mlpForward sigmoid p.mlp (layerNormVec sqrt eps p.ln_2 (x1 l b)) d

/-! ### The stateful `attention` method, with dtype/device tags
(src/nets/vit.py lines 35-37)

`attention` REASSIGNS `self.attn_mask` to the mask cast to the input's dtype
and device, then calls `self.attn(x, x, x, need_weights=False,
attn_mask=self.attn_mask)[0]`.  The model returns the attention output
together with the new value of the stored field. -/

/-- `ResidualAttentionBlock.attention`: cast the stored mask (if any) to the
input's dtype/device, store it back, and run the attention primitive on
`(x, x, x)` with that mask. -/
def attentionMethod {n L B D : ℕ}
    (attnPrim : SeqTensor L B D → SeqTensor L B D → SeqTensor L B D →
      Option (MaskTensor n) → SeqTensor L B D)
    (attn_mask : Option (MaskTensor n)) (x : SeqTensor L B D) :
    SeqTensor L B D × Option (MaskTensor n) :=
  let attn_mask2 := attn_mask.map (fun m => m.to x.dtype x.device)
  (attnPrim x x x attn_mask2, attn_mask2)

/-- The mutable state a `ResidualAttentionBlock` holds: its learned weights
and the stored `attn_mask` field. -/
structure BlockState (n D : ℕ) : Type where
  prm : BlockParams D
  attn_mask : Option (MaskTensor n)

/-- `ResidualAttentionBlock.forward` with explicit state threading: the
returned state records what the block's fields hold after the call (the
`attention` method reassigns `self.attn_mask`; nothing assigns the weights).
`nn.MultiheadAttention` preserves its query's dtype/device, so the residual
sums carry `x`'s tags. -/
def blockStep (sqrt sigmoid : ℚ → ℚ) (eps : ℚ) {n L B D : ℕ}
    (attnPrim : SeqTensor L B D → SeqTensor L B D → SeqTensor L B D →
      Option (MaskTensor n) → SeqTensor L B D)
    (st : BlockState n D) (x : SeqTensor L B D) :
    SeqTensor L B D × BlockState n D :=
  let xn1 : SeqTensor L B D :=
    { dtype := x.dtype, device := x.device
      data := fun l b => layerNormVec sqrt eps st.prm.ln_1 (x.data l b) }
  let r := attentionMethod attnPrim st.attn_mask xn1
  let x1 : SeqTensor L B D :=
    { dtype := x.dtype, device := x.device
      data := fun l b d => x.data l b d + (r.1).data l b d }
  let x2 : SeqTensor L B D :=
    { dtype := x.dtype, device := x.device
      data := fun l b d =>
        x1.data l b d +
          mlpForward sigmoid st.prm.mlp (layerNormVec sqrt eps st.prm.ln_2 (x1.data l b)) d }
  (x2, { st with attn_mask := r.2 })

/-! ## Transformer stack (src/nets/vit.py lines 45-53) -/

/-- One block of the stack: its attention primitive (the block's own
`nn.MultiheadAttention` weights live inside it) and its learned weights. -/
structure VTBlock (L B D : ℕ) : Type where
  attnFn : (Fin L → Fin B → Fin D → ℚ) → Option (Fin L → Fin L → MaskVal) →
    (Fin L → Fin B → Fin D → ℚ)
  prm : BlockParams D

/-- `Transformer.forward`: sequential application of the residual blocks, all
sharing one optional attention mask. -/
def transformerForward (sqrt sigmoid : ℚ → ℚ) (eps : ℚ) {L B D : ℕ}
    (mask : Option (Fin L → Fin L → MaskVal)) (blocks : List (VTBlock L B D))
    (x : Fin L → Fin B → Fin D → ℚ) : Fin L → Fin B → Fin D → ℚ :=
  blocks.foldl (fun acc blk => resblockForward sqrt sigmoid eps blk.attnFn mask blk.prm acc) x

/-! ## VisionTransformer (src/nets/vit.py lines 56-108) -/

/-- Index `gi * patch + ki` into an axis of length `grid * patch`:
the pixel read by the strided convolution. -/
def patchIdx {g p : ℕ} (gi : Fin g) (ki : Fin p) : Fin (g * p) :=
  ⟨gi.val * p + ki.val, by
    have h1 : gi.val * p + ki.val < (gi.val + 1) * p := by
      have := ki.isLt
      calc gi.val * p + ki.val < gi.val * p + p := by omega
        _ = (gi.val + 1) * p := by ring
    exact lt_of_lt_of_le h1 (Nat.mul_le_mul_right p gi.isLt)⟩

/-- Row index of flattened spatial position `t` (`t / grid`). -/
def flatRow {g : ℕ} (t : Fin (g * g)) : Fin g :=
  ⟨t.val / g, Nat.div_lt_of_lt_mul t.isLt⟩

/-- Column index of flattened spatial position `t` (`t % grid`). -/
def flatCol {g : ℕ} (t : Fin (g * g)) : Fin g :=
  ⟨t.val % g, by
    have hg : 0 < g := by
      rcases Nat.eq_zero_or_pos g with h | h
      · subst h; exact absurd t.isLt (by simp)
      · exact h
    exact Nat.mod_lt _ hg⟩

/-- `self.conv1`: bias-free convolution with `kernel_size = stride =
patch_size` over a `3 × (g*p) × (g*p)` image, producing the `W × g × g`
patch grid. -/
def conv1Strided {B W g p : ℕ} (w : Fin W → Fin 3 → Fin p → Fin p → ℚ)
    (x : Fin B → Fin 3 → Fin (g * p) → Fin (g * p) → ℚ) :
    Fin B → Fin W → Fin g → Fin g → ℚ :=
  fun b o gi gj => ∑ c, ∑ ki, ∑ kj, w o c ki kj * x b c (patchIdx gi ki) (patchIdx gj kj)

/-- `torch.cat([class_embedding + zeros, x], dim=1)`: position 0 becomes the
class token (plus the broadcast zeros), positions `s ≥ 1` shift from `s - 1`. -/
def withClassToken {B S W : ℕ} (cls : Fin W → ℚ) (x : Fin B → Fin S → Fin W → ℚ) :
    Fin B → Fin (S + 1) → Fin W → ℚ :=
  fun b s o =>
    if h : s.val = 0 then cls o + 0
    else x b ⟨s.val - 1, by have := s.isLt; omega⟩ o

/-- Learned parameters of `VisionTransformer` (the per-block weights live in
the `VTBlock` list). -/
structure VisionTransformerParams (g p W De : ℕ) : Type where
  conv1_weight : Fin W → Fin 3 → Fin p → Fin p → ℚ
  class_embedding : Fin W → ℚ
  positional_embedding : Fin (g * g + 1) → Fin W → ℚ
  ln_pre : LnParams W
  ln_post : LnParams W
  proj : Fin W → Fin De → ℚ

/-- `VisionTransformer.forward`: patchify, flatten + transpose, prepend the
class token, add the positional embedding, `ln_pre`, permute to (seq, batch),
run the stack with NO attention mask, permute back, take sequence position 0,
`ln_post`, and project with `proj` (no bias). -/
def visionTransformerForward (sqrt sigmoid : ℚ → ℚ) (eps : ℚ) {g p W De B : ℕ}
    (vp : VisionTransformerParams g p W De)
    (blocks : List (VTBlock (g * g + 1) B W))
    (x : Fin B → Fin 3 → Fin (g * p) → Fin (g * p) → ℚ) : Fin B → Fin De → ℚ :=
  let x1 : Fin B → Fin (g * g) → Fin W → ℚ := fun b t o =>
    conv1Strided vp.conv1_weight x b o (flatRow t) (flatCol t)
  let x2 := withClassToken vp.class_embedding x1
  let x3 : Fin B → Fin (g * g + 1) → Fin W → ℚ := fun b s o =>
    x2 b s o + vp.positional_embedding s o
  let x4 : Fin B → Fin (g * g + 1) → Fin W → ℚ := fun b s =>
    layerNormVec sqrt eps vp.ln_pre (x3 b s)
  let x5 : Fin (g * g + 1) → Fin B → Fin W → ℚ := fun s b => x4 b s
  let x6 := transformerForward sqrt sigmoid eps none blocks x5
  let x7 : Fin B → Fin (g * g + 1) → Fin W → ℚ := fun b s => x6 s b
  let x8 : Fin B → Fin W → ℚ := fun b => layerNormVec sqrt eps vp.ln_post (x7 b 0)
  fun b e => ∑ o, x8 b o * vp.proj o e

/-! ## CLIP.encode_text, "openai" variant (src/nets/clip.py lines 85-99)

`tokenize` (from `simple_tokenizer`, not under src/) produces the
`(batch, n_ctx)` integer id matrix; the model takes that matrix as input.
`self.transformer` here is `bert.Transformer` (also not under src/), an
abstract sequence-to-sequence function parameter.  The pooling step
`x[torch.arange(x.shape[0]), text.argmax(dim=-1)] @ self.text_projection`
is repository code and is modelled exactly. -/

/-- `torch.argmax` over one id sequence: index of the first occurrence of the
maximum value. -/
def torchArgmax {n : ℕ} (v : Fin (n + 1) → ℕ) : Fin (n + 1) :=
  (List.finRange (n + 1)).foldl (fun best i => if v best < v i then i else best) 0

/-- The pooling position `encode_text` uses for batch row `b`:
`text.argmax(dim=-1)` of that row's token ids. -/
def poolingPosition {B n : ℕ} (tokens : Fin B → Fin (n + 1) → ℕ) (b : Fin B) :
    Fin (n + 1) :=
  torchArgmax (tokens b)

/-- `CLIP.encode_text` for `bert_type == "openai"`, after tokenization:
embed ids, add the positional embedding, permute NLD→LND, run the (causal)
text transformer, permute back, `ln_final`, then take each sequence's hidden
state at the argmax-id position and multiply by `text_projection`. -/
def encodeTextOpenai (sqrt : ℚ → ℚ) (eps : ℚ) {B n Dw De : ℕ}
    (transformer : (Fin (n + 1) → Fin B → Fin Dw → ℚ) →
      (Fin (n + 1) → Fin B → Fin Dw → ℚ))
    (token_embedding : ℕ → Fin Dw → ℚ)
    (positional_embedding : Fin (n + 1) → Fin Dw → ℚ)
    (ln_final : LnParams Dw)
    (text_projection : Fin Dw → Fin De → ℚ)
    (tokens : Fin B → Fin (n + 1) → ℕ) : Fin B → Fin De → ℚ :=
  let x0 : Fin B → Fin (n + 1) → Fin Dw → ℚ := fun b i d =>
    token_embedding (tokens b i) d + positional_embedding i d
  let x1 := transformer (fun i b => x0 b i)
  let x2 : Fin B → Fin (n + 1) → Fin Dw → ℚ := fun b i =>
    layerNormVec sqrt eps ln_final (x1 i b)
  fun b e => ∑ w, x2 b (poolingPosition tokens b) w * text_projection w e

/-! ## CLIP.__init__ and the backbone selector (src/nets/clip.py lines 12-67)

`__init__` branches on `bert_type` with `if ... elif ...` and NO else branch,
so a third value sets neither text backbone and construction still finishes.
For `bert_type == "huggingface"` the read `kwargs['huggingface_model_name']`
raises `KeyError` when absent, modelled by `Except.error`.  Fields created
unconditionally (visual, text_projection, ln_final, logit_scale) carry no
information relevant to the selector claims and are left out of the shell. -/

/-- Text components the "openai" branch creates; the transformer is built
with `attn_mask = self.build_attention_mask()`. -/
structure OpenaiTextComponents (ctx : ℕ) : Type where
  attn_mask : Fin ctx → Fin ctx → MaskVal

/-- Text components the "huggingface" branch creates. -/
structure HuggingfaceTextComponents : Type where
  model_name : String

/-- The selector-relevant fields of a constructed `CLIP` object. -/
structure CLIPShell (ctx : ℕ) : Type where
  bert_type : String
  openaiComponents : Option (OpenaiTextComponents ctx)
  huggingfaceComponents : Option HuggingfaceTextComponents

/-- `CLIP.__init__` restricted to the selector branch. -/
def CLIP.init (bert_type : String) (ctx : ℕ)
    (huggingface_model_name : Option String) : Except String (CLIPShell ctx) :=
  if bert_type = "openai" then
    Except.ok
      { bert_type := bert_type
        openaiComponents := some ⟨build_attention_mask ctx⟩
        huggingfaceComponents := none }
  else if bert_type = "huggingface" then
    match huggingface_model_name with
    | some nm =>
        Except.ok
          { bert_type := bert_type
            openaiComponents := none
            huggingfaceComponents := some ⟨nm⟩ }
    | none => Except.error "KeyError: huggingface_model_name"
  else
    Except.ok
      { bert_type := bert_type
        openaiComponents := none
        huggingfaceComponents := none }

/-- Whether a construction attempt finished without raising. -/
def constructionCompletes {ctx : ℕ} : Except String (CLIPShell ctx) → Bool
  | Except.ok _ => true
  | Except.error _ => false

/-- The `if/elif` dispatch of `CLIP.encode_text`: with an unrecognized
`bert_type` neither branch binds `x`, and `return x` raises
`UnboundLocalError` at call time — modelled as `none`. -/
def encodeTextDispatch {ctx : ℕ} (s : CLIPShell ctx) : Option Unit :=
  if s.bert_type = "openai" then
    match s.openaiComponents with
    | some _ => some ()
    | none => none
  else if s.bert_type = "huggingface" then
    match s.huggingfaceComponents with
    | some _ => some ()
    | none => none
  else none

/-! ## dtype/device propagation (src/nets/clip.py lines 69-99)

dtype-level semantics of the encode paths.  An op whose torch kernel demands
matching dtypes (conv with its weight, a residual block with its attention
and linear weights, plain `nn.LayerNorm`, matmul) returns `none` on a
mismatch; an explicit `.type(...)` cast always succeeds; the casting
`LayerNorm` of vit.py returns its input dtype (it casts back itself).  The
`.to(x.dtype)` casts on `class_embedding` and `positional_embedding` make
those adds dtype-safe, so they do not constrain the result. -/

/-- dtype and device of one parameter tensor. -/
structure ParamTags : Type where
  dtype : DType
  device : Device
  deriving DecidableEq, Repr

/-- dtype/device tags of the parameters the encode paths touch. -/
structure CLIPTagState : Type where
  visual_conv1_weight : ParamTags
  visual_block_weights : DType
  visual_proj : DType
  token_embedding : DType
  text_block_weights : DType
  ln_final_weight : DType
  text_projection : DType
  deriving DecidableEq, Repr

/-- The `CLIP.dtype` property: `self.visual.conv1.weight.dtype`. -/
def CLIP.dtypeProp (st : CLIPTagState) : DType := st.visual_conv1_weight.dtype

/-- `t.type(dt)`: the result dtype is `dt`, whatever the input was. -/
def castD (dt : DType) (_x : DType) : DType := dt

/-- Convolution with a weight of dtype `weightD`: demands a matching input. -/
def convD (weightD inputD : DType) : Option DType :=
  if inputD = weightD then some inputD else none

/-- One residual block whose attention/linear weights have dtype `weightD`. -/
def blockD (weightD inputD : DType) : Option DType :=
  if inputD = weightD then some inputD else none

/-- A stack of `k` residual blocks sharing the weight dtype `weightD`. -/
def stackD (weightD : DType) : ℕ → DType → Option DType
  | 0, d => some d
  | Nat.succ k, d => (blockD weightD d).bind (stackD weightD k)

/-- The casting `LayerNorm` of vit.py: returns the input dtype. -/
def lnCastD (inputD : DType) : DType := inputD

/-- Plain `nn.LayerNorm` (`ln_final` in clip.py): demands a matching input. -/
def lnPlainD (weightD inputD : DType) : Option DType :=
  if inputD = weightD then some inputD else none

/-- Matrix multiplication: demands matching dtypes. -/
def matmulD (a b : DType) : Option DType :=
  if a = b then some a else none

/-- `CLIP.encode_image` at dtype level: `self.visual(image.type(self.dtype))`,
where the visual forward is conv1, class/pos adds (cast to the input dtype),
`ln_pre`, the block stack, `ln_post`, and the `proj` matmul. -/
def encodeImageDtype (st : CLIPTagState) (layers : ℕ) (imageD : DType) :
    Option DType :=
  let d0 := castD (CLIP.dtypeProp st) imageD
  (convD st.visual_conv1_weight.dtype d0).bind fun d1 =>
    (stackD st.visual_block_weights layers (lnCastD d1)).bind fun d2 =>
      matmulD (lnCastD d2) st.visual_proj

/-- `CLIP.encode_text` ("openai") at dtype level:
`token_embedding(text).type(self.dtype)`, `+ positional_embedding.type(self.dtype)`,
the text block stack, `ln_final(x).type(self.dtype)`, `@ text_projection`. -/
def encodeTextOpenaiDtype (st : CLIPTagState) (layers : ℕ) : Option DType :=
  let d0 := castD (CLIP.dtypeProp st) st.token_embedding
  (stackD st.text_block_weights layers d0).bind fun d1 =>
    (lnPlainD st.ln_final_weight d1).bind fun d2 =>
      matmulD (castD (CLIP.dtypeProp st) (lnCastD d2)) st.text_projection

/-- The device of the token-id tensor `encode_text` feeds the embedding:
`tokenize(...)` is moved with `.to(self.visual.conv1.weight.device)`. -/
def encodeTextTokenDevice (st : CLIPTagState) : Device :=
  st.visual_conv1_weight.device

/-! ## Example states used by witnesses -/

/-- A tag state with every parameter in float32 on the cpu. -/
def allFloat32Tags : CLIPTagState :=
  { visual_conv1_weight := ⟨DType.float32, Device.cpu⟩
    visual_block_weights := DType.float32
    visual_proj := DType.float32
    token_embedding := DType.float32
    text_block_weights := DType.float32
    ln_final_weight := DType.float32
    text_projection := DType.float32 }

/-! # Theorems -/

/-! ## Helper lemmas -/

/-- The accumulator never beats the running maximum of the argmax fold. -/
theorem argmax_foldl_acc_le {m : ℕ} (v : Fin m → ℕ) (l : List (Fin m)) (acc : Fin m) :
    v acc ≤ v (l.foldl (fun best i => if v best < v i then i else best) acc) := by
  induction l generalizing acc with
  | nil => exact le_refl _
  | cons a l ih =>
      by_cases h : v acc < v a
      · simpa [h] using le_trans (le_of_lt h) (ih a)
      · simpa [h] using ih acc

/-- Every element visited by the argmax fold is bounded by the result. -/
theorem argmax_foldl_le {m : ℕ} (v : Fin m → ℕ) (l : List (Fin m)) (acc : Fin m)
    (i : Fin m) (hi : i ∈ l) :
    v i ≤ v (l.foldl (fun best j => if v best < v j then j else best) acc) := by
  induction l generalizing acc with
  | nil => cases hi
  | cons a l ih =>
      rcases List.mem_cons.mp hi with h | h2
      · subst h
        by_cases h : v acc < v i
        · simpa [h] using argmax_foldl_acc_le v l i
        · simpa [h] using le_trans (le_of_not_lt h) (argmax_foldl_acc_le v l acc)
      · by_cases h : v acc < v a
        · simpa [h] using ih a h2
        · simpa [h] using ih acc h2

/-- `torch.argmax` lands on a maximal entry. -/
theorem torchArgmax_is_max {n : ℕ} (v : Fin (n + 1) → ℕ) (i : Fin (n + 1)) :
    v i ≤ v (torchArgmax v) :=
  argmax_foldl_le v (List.finRange (n + 1)) 0 i (List.mem_finRange i)

/-- A convolution accepts an input that matches its weight dtype. -/
theorem convD_self (d : DType) : convD d d = some d := if_pos rfl

/-- A block stack at dtype level never changes a dtype it accepts. -/
theorem stackD_eq_of_some (wd : DType) (k : ℕ) (d d2 : DType)
    (h : stackD wd k d = some d2) : d2 = d := by
  induction k generalizing d with
  | zero =>
      simp [stackD] at h
      exact h.symm
  | succ k ih =>
      by_cases hd : d = wd
      · subst hd
        simp [stackD, blockD] at h
        exact ih _ h
      · simp [stackD, blockD, hd] at h

/-! ## C2: the causal attention mask -/

/-- C2: `CLIP.build_attention_mask` produces the (context_length,
context_length) matrix whose entry at row `i`, column `j` is -inf exactly when
`j > i` (strictly above the diagonal) and 0 when `j ≤ i` (on and below the
diagonal), so under additive masking position `i` attends only to positions
`≤ i`. -/
theorem build_attention_mask_causal (n : ℕ) (i j : Fin n) :
    build_attention_mask n i j =
      if i.val < j.val then MaskVal.negInf else MaskVal.val 0 := by
  simp [build_attention_mask, triuInPlace, maskFillNegInf, Nat.lt_iff_add_one_le]

/-! ## C1: the forward similarity computation -/

/-- C1: `CLIP.forward` L2-normalizes the image and text embeddings
independently along the feature axis, returns `logits_per_image` of shape
(batch_images, batch_texts) — the type of `.1` — whose `(i, j)` entry is
`exp(logit_scale)` times the inner product of the normalized rows, and returns
`logits_per_text` exactly equal to the transpose of `logits_per_image`. -/
theorem clipForwardLogits_spec (rexp sqrt : ℚ → ℚ) (logit_scale : ℚ)
    {Bv Bt d : ℕ} (imgF : Fin Bv → Fin d → ℚ) (txtF : Fin Bt → Fin d → ℚ)
    (i : Fin Bv) (j : Fin Bt) :
    (clipForwardLogits rexp sqrt logit_scale imgF txtF).1 i j =
        rexp logit_scale *
          ∑ k, (imgF i k / sqrt (∑ k2, imgF i k2 * imgF i k2)) *
               (txtF j k / sqrt (∑ k2, txtF j k2 * txtF j k2)) ∧
    (clipForwardLogits rexp sqrt logit_scale imgF txtF).2 =
        transposeM (clipForwardLogits rexp sqrt logit_scale imgF txtF).1 := by
  constructor
  · show (∑ k, (rexp logit_scale * normalizeRows sqrt imgF i k) * normalizeRows sqrt txtF j k) = _
    rw [Finset.mul_sum]
    exact Finset.sum_congr rfl fun k _ => by
      simp [normalizeRows, l2norm]; ring
  · rfl

/-! ## C6: the residual attention block -/

/-- C6: `ResidualAttentionBlock.forward` computes first
`x1 = x + Attention(ln_1(x))` and then `x1 + FeedForward(ln_2(x1))`, where the
feed-forward is `c_proj ∘ QuickGELU ∘ c_fc` with a 4x width expansion (the
types of `MlpParams` force `4 * D`), and the output has the input's
(seq, batch, width) shape — the type of both sides. -/
theorem resblockForward_spec (sqrt sigmoid : ℚ → ℚ) (eps : ℚ) {L B D : ℕ}
    (attnFn : (Fin L → Fin B → Fin D → ℚ) → Option (Fin L → Fin L → MaskVal) →
      (Fin L → Fin B → Fin D → ℚ))
    (mask : Option (Fin L → Fin L → MaskVal)) (p : BlockParams D)
    (x : Fin L → Fin B → Fin D → ℚ) (l : Fin L) (b : Fin B) (d : Fin D) :
    resblockForward sqrt sigmoid eps attnFn mask p x l b d =
      (x l b d + attnFn (fun l2 b2 => layerNormVec sqrt eps p.ln_1 (x l2 b2)) mask l b d) +
        linearMap p.mlp.c_proj_w p.mlp.c_proj_b
          (fun h => quickGELU sigmoid
            (linearMap p.mlp.c_fc_w p.mlp.c_fc_b
              (layerNormVec sqrt eps p.ln_2
                (fun d2 => x l b d2 +
                  attnFn (fun l2 b2 => layerNormVec sqrt eps p.ln_1 (x l2 b2)) mask l b d2)) h))
          d :=
  rfl

/-! ## C7: mask reconciliation before attention -/

/-- C7: whenever a block holding a stored mask runs `attention`, the mask
actually handed to the attention primitive is the stored mask cast to the
input's dtype and device, and that cast mask's tags equal the input's — so a
mask/input dtype or device mismatch never reaches the attention operation. -/
theorem attentionMethod_casts_mask {n L B D : ℕ}
    (attnPrim : SeqTensor L B D → SeqTensor L B D → SeqTensor L B D →
      Option (MaskTensor n) → SeqTensor L B D)
    (m : MaskTensor n) (x : SeqTensor L B D) :
    (attentionMethod attnPrim (some m) x).1 =
        attnPrim x x x (some (m.to x.dtype x.device)) ∧
    (m.to x.dtype x.device).dtype = x.dtype ∧
    (m.to x.dtype x.device).device = x.device ∧
    (m.to x.dtype x.device).data = m.data :=
  ⟨rfl, rfl, rfl, rfl⟩

/-! ## C9: the casting LayerNorm -/

/-- C9: `LayerNorm.forward` (vit.py) runs the base normalization on the input
cast to float32 and returns the result cast back, so for an input of any
floating dtype the output dtype equals the input dtype, the shape is the
input's shape (the type of both sides), the device is unchanged, and there is
no side effect (the model is a pure function of `x`). -/
theorem layerNormCast_spec (sqrt : ℚ → ℚ) (eps : ℚ) {B D : ℕ} (p : LnParams D)
    (x : BTensor B D) :
    (LayerNormCast.forward sqrt eps p x).dtype = x.dtype ∧
    (LayerNormCast.forward sqrt eps p x).device = x.device ∧
    (x.type DType.float32).dtype = DType.float32 ∧
    LayerNormCast.forward sqrt eps p x =
      (nnLayerNormForward sqrt eps p (x.type DType.float32)).type x.dtype ∧
    (LayerNormCast.forward sqrt eps p x).data =
      fun b => layerNormVec sqrt eps p (x.data b) :=
  ⟨rfl, rfl, rfl, rfl, rfl⟩

/-! ## C3: the backbone selector (corrected) -/

/-- C3 counterexample: constructing with the unrecognized selector "bert"
COMPLETES (no error is raised), refuting the claim that the constructor
rejects any value outside the two recognized variants. -/
theorem clipInit_unknown_selector_counterexample :
    constructionCompletes (CLIP.init "bert" 77 none) = true := rfl

/-- C3 (amended): for any selector other than "openai" and "huggingface",
construction completes without error — the `if/elif` has no else branch — and
the resulting object has neither text backbone, so the failure only surfaces
when `encode_text` is called (its dispatch binds nothing and raises then,
modelled as `none`). -/
theorem clipInit_unknown_selector_spec (bt : String) (ctx : ℕ)
    (hf : Option String) (h1 : bt ≠ "openai") (h2 : bt ≠ "huggingface") :
    CLIP.init bt ctx hf =
        Except.ok
          { bert_type := bt, openaiComponents := none, huggingfaceComponents := none } ∧
    constructionCompletes (CLIP.init bt ctx hf) = true ∧
    encodeTextDispatch
        ({ bert_type := bt, openaiComponents := none,
           huggingfaceComponents := none } : CLIPShell ctx) = none := by
  refine ⟨?_, ?_, ?_⟩ <;>
    simp [CLIP.init, constructionCompletes, encodeTextDispatch, h1, h2]

/-- Witness for the amended C3 at the concrete selector "bert". -/
theorem clipInit_unknown_selector_spec_witness :
    ("bert" : String) ≠ "openai" ∧ ("bert" : String) ≠ "huggingface" ∧
    CLIP.init "bert" 77 none =
        Except.ok
          { bert_type := "bert", openaiComponents := none,
            huggingfaceComponents := none } ∧
    encodeTextDispatch
        ({ bert_type := "bert", openaiComponents := none,
           huggingfaceComponents := none } : CLIPShell 77) = none :=
  ⟨by decide, by decide,
    (clipInit_unknown_selector_spec "bert" 77 none (by decide) (by decide)).1,
    (clipInit_unknown_selector_spec "bert" 77 none (by decide) (by decide)).2.2⟩

/-! ## C4: argmax pooling in the "openai" text encoder -/

/-- C4: for every batch of token-id sequences, the "openai" `encode_text`
pools each sequence by selecting the final hidden state at
`text.argmax(dim=-1)` — the position of the sequence's highest-valued token id
— before projecting; the pooling position is a function of the token ids
alone, so the identical input selects the same position both times. -/
theorem encodeTextOpenai_pooling_spec (sqrt : ℚ → ℚ) (eps : ℚ) {B n Dw De : ℕ}
    (transformer : (Fin (n + 1) → Fin B → Fin Dw → ℚ) →
      (Fin (n + 1) → Fin B → Fin Dw → ℚ))
    (token_embedding : ℕ → Fin Dw → ℚ)
    (positional_embedding : Fin (n + 1) → Fin Dw → ℚ)
    (ln_final : LnParams Dw) (text_projection : Fin Dw → Fin De → ℚ)
    (tokens : Fin B → Fin (n + 1) → ℕ) (b : Fin B) :
    (∀ e, encodeTextOpenai sqrt eps transformer token_embedding
        positional_embedding ln_final text_projection tokens b e =
        ∑ w, layerNormVec sqrt eps ln_final
            (transformer
              (fun i b2 d => token_embedding (tokens b2 i) d + positional_embedding i d)
              (poolingPosition tokens b) b) w
          * text_projection w e) ∧
    (∀ i, tokens b i ≤ tokens b (poolingPosition tokens b)) ∧
    (∀ tokens2 : Fin B → Fin (n + 1) → ℕ, tokens2 = tokens →
        poolingPosition tokens2 b = poolingPosition tokens b) :=
  ⟨fun _ => rfl, fun i => torchArgmax_is_max (tokens b) i, fun _ h => by rw [h]⟩

/-- Witness for C4 at a concrete one-token batch. -/
theorem encodeTextOpenai_pooling_spec_witness :
    ((fun _ _ => 0 : Fin 1 → Fin 1 → ℕ) = fun _ _ => 0) ∧
    poolingPosition (fun _ _ => 0 : Fin 1 → Fin 1 → ℕ) 0 =
      poolingPosition (fun _ _ => 0 : Fin 1 → Fin 1 → ℕ) 0 :=
  ⟨rfl,
    (@encodeTextOpenai_pooling_spec (fun q => q) 0 1 0 1 1 (fun y => y)
        (fun _ _ => 0) (fun _ _ => 0) ⟨fun _ => 1, fun _ => 0⟩ (fun _ _ => 0)
        (fun _ _ => 0) 0).2.2 (fun _ _ => 0) rfl⟩

/-! ## C5: the vision encoder pipeline -/

/-- C5: for every batch size `B` (in particular all `B ≥ 1`) the vision
encoder maps an input of shape (B, 3, g·p, g·p) — with g·p the input
resolution — to an output of shape (B, embed_dim) (the types of both sides),
by patchifying with the strided convolution, flattening to g² tokens,
prepending the learned class token at sequence position 0 (sequence length
g² + 1, the index type shared with the positional embedding), adding the
positional embedding, `ln_pre`, running the transformer stack with NO mask,
pooling only the class-token position 0, `ln_post`, and projecting bias-free
with `proj`. -/
theorem visionTransformerForward_spec (sqrt sigmoid : ℚ → ℚ) (eps : ℚ)
    {g p W De B : ℕ} (vp : VisionTransformerParams g p W De)
    (blocks : List (VTBlock (g * g + 1) B W))
    (x : Fin B → Fin 3 → Fin (g * p) → Fin (g * p) → ℚ) (b : Fin B) :
    (∀ e, visionTransformerForward sqrt sigmoid eps vp blocks x b e =
        ∑ o, layerNormVec sqrt eps vp.ln_post
            (fun o2 => transformerForward sqrt sigmoid eps none blocks
              (fun s b2 => layerNormVec sqrt eps vp.ln_pre
                (fun o3 => withClassToken vp.class_embedding
                    (fun b3 t o4 =>
                      conv1Strided vp.conv1_weight x b3 o4 (flatRow t) (flatCol t))
                    b2 s o3
                  + vp.positional_embedding s o3))
              (0 : Fin (g * g + 1)) b o2) o
          * vp.proj o e) ∧
    (∀ o, withClassToken vp.class_embedding
        (fun b3 t o4 => conv1Strided vp.conv1_weight x b3 o4 (flatRow t) (flatCol t))
        b 0 o = vp.class_embedding o + 0) :=
  ⟨fun _ => rfl, fun _ => rfl⟩

/-! ## C8: stored state during a forward pass (corrected) -/

/-- C8 counterexample: a block holding a float32 mask, run on a float16 input,
does NOT keep its stored `attn_mask` field unchanged — `attention` reassigns
it to the cast mask — refuting the claim that all stored fields (including
each block's stored attention mask) are read-only during a forward pass. -/
theorem blockStep_mutates_mask_counterexample :
    (blockStep (fun q => q) (fun q => q) 0 (fun q _ _ _ => q)
        (⟨⟨⟨fun _ => 1, fun _ => 0⟩, ⟨fun _ => 1, fun _ => 0⟩,
            ⟨fun _ _ => 0, fun _ => 0, fun _ _ => 0, fun _ => 0⟩⟩,
          some ⟨DType.float32, Device.cpu, fun _ _ => MaskVal.val 0⟩⟩ :
          BlockState 1 1)
        (⟨DType.float16, Device.cpu, fun _ _ _ => 0⟩ : SeqTensor 1 1 1)).2.attn_mask ≠
      some ⟨DType.float32, Device.cpu, fun _ _ => MaskVal.val 0⟩ := by
  intro h
  simp [blockStep, attentionMethod, MaskTensor.to] at h

/-- C8 (amended): during one block forward pass the learned weights are
read-only, and the single stored field that IS written is the block's
`attn_mask`, which `attention` overwrites with the stored mask cast to the
input's dtype and device (payload unchanged); when the stored mask already
matches the input's dtype and device — in particular between optimizer steps
on a settled model — the state is unchanged. -/
theorem blockStep_state_spec (sqrt sigmoid : ℚ → ℚ) (eps : ℚ) {n L B D : ℕ}
    (attnPrim : SeqTensor L B D → SeqTensor L B D → SeqTensor L B D →
      Option (MaskTensor n) → SeqTensor L B D)
    (st : BlockState n D) (x : SeqTensor L B D) :
    (blockStep sqrt sigmoid eps attnPrim st x).2.prm = st.prm ∧
    (blockStep sqrt sigmoid eps attnPrim st x).2.attn_mask =
        st.attn_mask.map (fun m => m.to x.dtype x.device) ∧
    (∀ m, st.attn_mask = some m → m.dtype = x.dtype → m.device = x.device →
        (blockStep sqrt sigmoid eps attnPrim st x).2 = st) := by
  refine ⟨rfl, rfl, ?_⟩
  intro m hm hdt hdev
  cases st with
  | mk prm am =>
      simp only at hm
      subst hm
      cases m with
      | mk mdt mdev mdata =>
          simp only at hdt hdev
          subst hdt; subst hdev
          rfl

/-- Witness for the amended C8 at a concrete matching mask and input. -/
theorem blockStep_state_spec_witness :
    (blockStep (fun q => q) (fun q => q) 0 (fun q _ _ _ => q)
        (⟨⟨⟨fun _ => 1, fun _ => 0⟩, ⟨fun _ => 1, fun _ => 0⟩,
            ⟨fun _ _ => 0, fun _ => 0, fun _ _ => 0, fun _ => 0⟩⟩,
          some ⟨DType.float32, Device.cpu, fun _ _ => MaskVal.val 0⟩⟩ :
          BlockState 1 1)
        (⟨DType.float32, Device.cpu, fun _ _ _ => 0⟩ : SeqTensor 1 1 1)).2 =
      (⟨⟨⟨fun _ => 1, fun _ => 0⟩, ⟨fun _ => 1, fun _ => 0⟩,
          ⟨fun _ _ => 0, fun _ => 0, fun _ _ => 0, fun _ => 0⟩⟩,
        some ⟨DType.float32, Device.cpu, fun _ _ => MaskVal.val 0⟩⟩ :
        BlockState 1 1) :=
  (blockStep_state_spec (fun q => q) (fun q => q) 0 (fun q _ _ _ => q) _ _).2.2
    ⟨DType.float32, Device.cpu, fun _ _ => MaskVal.val 0⟩ rfl rfl rfl

/-! ## C10: the model's working dtype and device -/

/-- C10: the model's working dtype is defined by the vision patch-convolution
weight: `CLIP.dtype` reads `visual.conv1.weight.dtype`; `encode_image` casts
any floating input to that dtype before encoding (`castD` makes the dtype
entering `visual` that dtype regardless of the input's); `encode_text`
(variant A) places the token ids on `visual.conv1.weight`'s device and casts
embeddings to that dtype; and whenever either encoder produces an output at
all, that output carries the vision convolution weight's dtype. -/
theorem clip_dtype_device_invariant (st : CLIPTagState) (layers : ℕ) :
    CLIP.dtypeProp st = st.visual_conv1_weight.dtype ∧
    encodeTextTokenDevice st = st.visual_conv1_weight.device ∧
    (∀ imageD, castD (CLIP.dtypeProp st) imageD = CLIP.dtypeProp st) ∧
    (∀ imageD d, encodeImageDtype st layers imageD = some d →
        d = CLIP.dtypeProp st) ∧
    (∀ d, encodeTextOpenaiDtype st layers = some d → d = CLIP.dtypeProp st) := by
  refine ⟨rfl, rfl, fun _ => rfl, ?_, ?_⟩
  · intro imageD d h
    simp only [encodeImageDtype, castD, lnCastD, CLIP.dtypeProp, convD_self,
      Option.some_bind] at h
    rcases h2 : stackD st.visual_block_weights layers st.visual_conv1_weight.dtype
      with _ | d2
    · rw [h2] at h; simp at h
    · rw [h2] at h
      simp only [Option.some_bind, matmulD] at h
      have hd2 : d2 = st.visual_conv1_weight.dtype := stackD_eq_of_some _ _ _ _ h2
      by_cases hp : d2 = st.visual_proj
      · rw [if_pos hp] at h
        cases h
        exact hd2
      · rw [if_neg hp] at h; cases h
  · intro d h
    simp only [encodeTextOpenaiDtype, castD, lnCastD, CLIP.dtypeProp,
      Option.some_bind] at h
    rcases h2 : stackD st.text_block_weights layers st.visual_conv1_weight.dtype
      with _ | d1
    · rw [h2] at h; simp at h
    · rw [h2] at h
      simp only [Option.some_bind, lnPlainD] at h
      by_cases hl : d1 = st.ln_final_weight
      · rw [if_pos hl] at h
        simp only [Option.some_bind, matmulD] at h
        by_cases hp : st.visual_conv1_weight.dtype = st.text_projection
        · rw [if_pos hp] at h
          cases h
          rfl
        · rw [if_neg hp] at h; cases h
      · rw [if_neg hl] at h; cases h

/-- Witness for C10 at the all-float32 tag state with one block layer and a
float16 image input. -/
theorem clip_dtype_device_invariant_witness :
    encodeImageDtype allFloat32Tags 1 DType.float16 = some DType.float32 ∧
    DType.float32 = CLIP.dtypeProp allFloat32Tags ∧
    encodeTextOpenaiDtype allFloat32Tags 1 = some DType.float32 ∧
    DType.float32 = CLIP.dtypeProp allFloat32Tags :=
  ⟨rfl,
    (clip_dtype_device_invariant allFloat32Tags 1).2.2.2.1 DType.float16
      DType.float32 rfl,
    rfl,
    (clip_dtype_device_invariant allFloat32Tags 1).2.2.2.2 DType.float32 rfl⟩

end ClipPyTorch
